import Mathlib

/-!
Shallow embedding of `src/app.py` (a small FastAPI service exposing a
greeting endpoint and a deterministic color-palette endpoint), together
with the Python library semantics the code relies on: UTF-8 encoding,
the MD5 digest (`hashlib.md5`), and CPython's global Mersenne Twister
generator (`random.seed` / `random.randint`).  Machine integers are
modelled as `Nat` with explicit reduction modulo `2 ^ 32`.
-/

namespace App

/-- Truncation to an unsigned 32-bit value. -/
def u32 (n : Nat) : Nat := n % 4294967296

/-- Semantically the identity (`strictNat n k = k n`, see `strictNat_eq`):
matching on the number forces it to a literal during kernel reduction, so
the long state-threading loops below evaluate in constant stack space
instead of building a deep chain of suspended updates. -/
def strictNat {α : Sort u} (n : Nat) (k : Nat → α) : α :=
  match n with
  | 0 => k 0
  | m + 1 => k (m + 1)

@[simp] lemma strictNat_eq {α : Sort u} (n : Nat) (k : Nat → α) :
    strictNat n k = k n := by
  cases n <;> rfl

/-- Left rotation of a 32-bit value `x` (assumed `< 2 ^ 32`) by `s` bits. -/
def rotl32 (x s : Nat) : Nat := (u32 (x <<< s)) ||| (x >>> (32 - s))

/-- UTF-8 encoding of a single Unicode scalar value, as a list of bytes. -/
def utf8Bytes (n : Nat) : List Nat :=
  if n < 128 then [n]
  else if n < 2048 then [192 + n / 64, 128 + n % 64]
  else if n < 65536 then [224 + n / 4096, 128 + n / 64 % 64, 128 + n % 64]
  else [240 + n / 262144, 128 + n / 4096 % 64, 128 + n / 64 % 64, 128 + n % 64]

/-- UTF-8 encoding of a string (Python `s.encode()`), as a list of bytes. -/
def utf8Encode (s : String) : List Nat :=
  (s.data.map fun c => utf8Bytes c.toNat).flatten

/-- The 64 MD5 sine-table constants `K[i]`. -/
def md5K : List Nat :=
  [0xd76aa478, 0xe8c7b756, 0x242070db, 0xc1bdceee,
   0xf57c0faf, 0x4787c62a, 0xa8304613, 0xfd469501,
   0x698098d8, 0x8b44f7af, 0xffff5bb1, 0x895cd7be,
   0x6b901122, 0xfd987193, 0xa679438e, 0x49b40821,
   0xf61e2562, 0xc040b340, 0x265e5a51, 0xe9b6c7aa,
   0xd62f105d, 0x02441453, 0xd8a1e681, 0xe7d3fbc8,
   0x21e1cde6, 0xc33707d6, 0xf4d50d87, 0x455a14ed,
   0xa9e3e905, 0xfcefa3f8, 0x676f02d9, 0x8d2a4c8a,
   0xfffa3942, 0x8771f681, 0x6d9d6122, 0xfde5380c,
   0xa4beea44, 0x4bdecfa9, 0xf6bb4b60, 0xbebfbc70,
   0x289b7ec6, 0xeaa127fa, 0xd4ef3085, 0x04881d05,
   0xd9d4d039, 0xe6db99e5, 0x1fa27cf8, 0xc4ac5665,
   0xf4292244, 0x432aff97, 0xab9423a7, 0xfc93a039,
   0x655b59c3, 0x8f0ccc92, 0xffeff47d, 0x85845dd1,
   0x6fa87e4f, 0xfe2ce6e0, 0xa3014314, 0x4e0811a1,
   0xf7537e82, 0xbd3af235, 0x2ad7d2bb, 0xeb86d391]

/-- The 64 MD5 per-round left-rotation amounts `S[i]`. -/
def md5S : List Nat :=
  [7, 12, 17, 22, 7, 12, 17, 22, 7, 12, 17, 22, 7, 12, 17, 22,
   5, 9, 14, 20, 5, 9, 14, 20, 5, 9, 14, 20, 5, 9, 14, 20,
   4, 11, 16, 23, 4, 11, 16, 23, 4, 11, 16, 23, 4, 11, 16, 23,
   6, 10, 15, 21, 6, 10, 15, 21, 6, 10, 15, 21, 6, 10, 15, 21]

/-- The MD5 round function (complement is 32-bit xor with all-ones). -/
def md5F (i b c d : Nat) : Nat :=
  if i < 16 then (b &&& c) ||| ((b ^^^ 4294967295) &&& d)
  else if i < 32 then (d &&& b) ||| ((d ^^^ 4294967295) &&& c)
  else if i < 48 then b ^^^ c ^^^ d
  else c ^^^ (b ||| (d ^^^ 4294967295))

/-- The MD5 message-word index for round `i`. -/
def md5G (i : Nat) : Nat :=
  if i < 16 then i
  else if i < 32 then (5 * i + 1) % 16
  else if i < 48 then (3 * i + 5) % 16
  else (7 * i) % 16

/-- Little-endian 32-bit word of a byte list at byte offset `i`. -/
def leWord (bs : List Nat) (i : Nat) : Nat :=
  bs.getD i 0 + 256 * bs.getD (i + 1) 0 + 65536 * bs.getD (i + 2) 0 +
    16777216 * bs.getD (i + 3) 0

/-- The `k` low-order bytes of `n`, little-endian. -/
def leBytes (k n : Nat) : List Nat :=
  (List.range k).map fun i => (n >>> (8 * i)) % 256

/-- One MD5 round applied to the running `(a, b, c, d)` state. -/
def md5Step (m : List Nat) (st : Nat × Nat × Nat × Nat) (i : Nat) :
    Nat × Nat × Nat × Nat :=
  let a := st.1
  let b := st.2.1
  let c := st.2.2.1
  let d := st.2.2.2
  strictNat (u32 (md5F i b c d + a + md5K.getD i 0 + m.getD (md5G i) 0)) fun f =>
  strictNat (u32 (b + rotl32 f (md5S.getD i 0))) fun nb =>
  (d, nb, b, c)

/-- MD5 compression of one 64-byte block into the chaining state. -/
def md5Block (st : Nat × Nat × Nat × Nat) (block : List Nat) :
    Nat × Nat × Nat × Nat :=
  let m := (List.range 16).map fun j => leWord block (4 * j)
  let r := (List.range 64).foldl (md5Step m) st
  (u32 (st.1 + r.1), u32 (st.2.1 + r.2.1), u32 (st.2.2.1 + r.2.2.1),
    u32 (st.2.2.2 + r.2.2.2))

/-- Fold MD5 compression over consecutive 64-byte blocks (fuelled; the
fuel is instantiated with the padded length, which bounds the number of
blocks). -/
def md5Loop : Nat → (Nat × Nat × Nat × Nat) → List Nat → Nat × Nat × Nat × Nat
  | 0, st, _ => st
  | _, st, [] => st
  | fuel + 1, st, l => md5Loop fuel (md5Block st (l.take 64)) (l.drop 64)

/-- MD5 padding: a `0x80` byte, zeros up to 56 mod 64, then the 64-bit
little-endian bit length. -/
def md5Pad (msg : List Nat) : List Nat :=
  let len := msg.length
  let zeros := (120 - (len + 1) % 64) % 64
  msg ++ 128 :: (List.replicate zeros 0 ++ leBytes 8 ((8 * len) % 18446744073709551616))

/-- The 16-byte MD5 digest of a byte list. -/
def md5Digest (msg : List Nat) : List Nat :=
  let p := md5Pad msg
  let r := md5Loop p.length (1732584193, 4023233417, 2562383102, 271733878) p
  leBytes 4 r.1 ++ leBytes 4 r.2.1 ++ leBytes 4 r.2.2.1 ++ leBytes 4 r.2.2.2

/-- Lowercase hexadecimal digit character for a value `< 16`. -/
def hexChar (n : Nat) : Char :=
  if n < 10 then Char.ofNat (48 + n) else Char.ofNat (87 + n)

/-- Two lowercase hex characters of a byte. -/
def byteHex (b : Nat) : List Char := [hexChar (b / 16 % 16), hexChar (b % 16)]

/-- The 32-character lowercase hex digest (Python `hashlib.md5(_).hexdigest()`). -/
def md5HexDigest (msg : List Nat) : List Char :=
  ((md5Digest msg).map byteHex).flatten

/-- Numeric value of one hexadecimal digit character (the inputs fed to it
in this development are always valid hex digits; on other characters
Python's `int(_, 16)` would raise instead). -/
def hexVal (c : Char) : Nat :=
  if 48 ≤ c.toNat ∧ c.toNat ≤ 57 then c.toNat - 48
  else if 97 ≤ c.toNat ∧ c.toNat ≤ 102 then c.toNat - 87
  else if 65 ≤ c.toNat ∧ c.toNat ≤ 70 then c.toNat - 55
  else 0

/-- Base-16 parse of a hex-digit character list (Python `int(x, 16)`). -/
def parseHexNat (l : List Char) : Nat :=
  l.foldl (fun acc c => 16 * acc + hexVal c) 0

/-!
CPython's Mersenne Twister (MT19937), exactly as in `_randommodule.c`:
624 words of 32-bit state plus an index.  The 624-word array is packed
into a single `Nat`, word `i` occupying bits `32 * i` to `32 * i + 31`.
-/

/-- State of CPython's global `random` generator: the packed 624-word
MT19937 array and the output index (`self->index`). -/
structure RandState where
  mt : Nat
  mti : Nat
deriving DecidableEq, Repr

/-- Word `i` of a packed MT state. -/
def wordAt (st i : Nat) : Nat := (st >>> (32 * i)) % 4294967296

/-- Overwrite word `i` of a packed MT state with `v` (callers always pass
`v < 2 ^ 32`). -/
def setWordAt (st i v : Nat) : Nat :=
  st - wordAt st i * (1 <<< (32 * i)) + v * (1 <<< (32 * i))

/-- The loop of `init_genrand`, a fuelled recursion on the remaining word
count carrying the position `i`, the packed state, and the previous word
(each carried number is forced via `strictNat` to keep kernel reduction
in constant stack space). -/
def initGenrandLoop : Nat → Nat → Nat → Nat → Nat
  | 0, _, st, _ => st
  | fuel + 1, i, st, prev =>
    strictNat (u32 (1812433253 * (prev ^^^ (prev >>> 30)) + i)) fun v =>
    strictNat (setWordAt st i v) fun st2 =>
    strictNat (i + 1) fun i2 =>
    initGenrandLoop fuel i2 st2 v

/-- `init_genrand` of `_randommodule.c`: fill the 624 words from a single
32-bit seed by the linear recurrence `mt[i] = 1812433253 *
(mt[i-1] ^ (mt[i-1] >> 30)) + i`. -/
def init_genrand (s : Nat) : Nat :=
  initGenrandLoop 623 1 (u32 s) (u32 s)

/-- The first mixing loop of `init_by_array`, carrying `(i, j, packed
state)`; returns the state together with the final `i`.  On wraparound
(`i` reaching 624) the word 0 is overwritten with word 623 and `i`
restarts at 1; `j` wraps around the key length. -/
def ibaLoop1 (key : List Nat) : Nat → Nat → Nat → Nat → Nat × Nat
  | 0, i, _, st => (st, i)
  | fuel + 1, i, j, st =>
    strictNat (wordAt st (i - 1)) fun prev =>
    strictNat (u32 ((wordAt st i ^^^ u32 ((prev ^^^ (prev >>> 30)) * 1664525)) +
      key.getD j 0 + j)) fun v =>
    strictNat (setWordAt st i v) fun st2 =>
    strictNat (if key.length ≤ j + 1 then 0 else j + 1) fun j2 =>
    if 624 ≤ i + 1 then
      strictNat (setWordAt st2 0 (wordAt st2 623)) fun st3 =>
      ibaLoop1 key fuel 1 j2 st3
    else
      ibaLoop1 key fuel (i + 1) j2 st2

/-- The second mixing loop of `init_by_array`, carrying `(i, packed
state)`, with the same wraparound rule; the per-step subtraction of `i`
is performed modulo `2 ^ 32`. -/
def ibaLoop2 : Nat → Nat → Nat → Nat
  | 0, _, st => st
  | fuel + 1, i, st =>
    strictNat (wordAt st (i - 1)) fun prev =>
    strictNat (u32 ((wordAt st i ^^^ u32 ((prev ^^^ (prev >>> 30)) * 1566083941)) +
      4294967296 - i)) fun v =>
    strictNat (setWordAt st i v) fun st2 =>
    if 624 ≤ i + 1 then
      strictNat (setWordAt st2 0 (wordAt st2 623)) fun st3 =>
      ibaLoop2 fuel 1 st3
    else
      ibaLoop2 fuel (i + 1) st2

/-- `init_by_array` of `_randommodule.c`: seed the state from a key
array — `init_genrand(19650218)`, then `max(624, len(key))` iterations of
the first mixing loop, 623 of the second, then force word 0 to
`0x80000000`. -/
def init_by_array (key : List Nat) : Nat :=
  let r1 := ibaLoop1 key (max 624 key.length) 1 0 (init_genrand 19650218)
  setWordAt (ibaLoop2 623 r1.2 r1.1) 0 2147483648

/-- Little-endian 32-bit limbs of a nonnegative integer (fuelled; the fuel
is instantiated with the number itself, which bounds the limb count).
This is how `random_seed` in CPython splits the seed integer into the
`init_by_array` key; a zero seed yields the one-element key `[0]`. -/
def natWords : Nat → Nat → List Nat
  | 0, n => [n % 4294967296]
  | fuel + 1, n =>
    if n < 4294967296 then [n]
    else n % 4294967296 :: natWords fuel (n / 4294967296)

/-- CPython `random.seed(a)` for a nonnegative integer `a`: the global
state is replaced wholesale by `init_by_array` on the 32-bit limbs of `a`,
and the output index is set past the end so the next draw regenerates.
The previous global state is discarded — it does not appear as an
argument, which is what makes the seeded sequence independent of it. -/
def randomSeed (a : Nat) : RandState :=
  ⟨init_by_array (natWords a a), 624⟩

/-- The MT19937 regeneration sweep (the `mti >= N` branch of
`genrand_uint32`): a fuelled recursion over the positions `kk = 0, ...,
623`, updating each word in place from words `kk + 1` and `kk + 397`
(both taken modulo 624, matching the three loops of the C code, which
read already-updated words once the indices wrap). -/
def twistLoop : Nat → Nat → Nat → Nat
  | 0, _, st => st
  | fuel + 1, kk, st =>
    strictNat ((wordAt st kk &&& 2147483648) |||
      (wordAt st ((kk + 1) % 624) &&& 2147483647)) fun y =>
    strictNat (wordAt st ((kk + 397) % 624) ^^^ (y >>> 1) ^^^
      (if y % 2 = 1 then 2567483615 else 0)) fun v =>
    strictNat (setWordAt st kk v) fun st2 =>
    strictNat (kk + 1) fun kk2 =>
    twistLoop fuel kk2 st2

/-- The full regeneration sweep over all 624 words. -/
def twist (st : Nat) : Nat := twistLoop 624 0 st

/-- `genrand_uint32` of `_randommodule.c`: regenerate if the index is
exhausted, output the next word, temper it. -/
def genrand_uint32 (g : RandState) : Nat × RandState :=
  strictNat (if 624 ≤ g.mti then twist g.mt else g.mt) fun st =>
  strictNat (if 624 ≤ g.mti then 0 else g.mti) fun idx =>
  strictNat (wordAt st idx) fun y0 =>
  strictNat (y0 ^^^ (y0 >>> 11)) fun y1 =>
  strictNat (y1 ^^^ ((y1 <<< 7) &&& 2636928640)) fun y2 =>
  strictNat (y2 ^^^ ((y2 <<< 15) &&& 4022730752)) fun y3 =>
  (y3 ^^^ (y3 >>> 18), ⟨st, idx + 1⟩)

/-- `random.getrandbits(k)` for `0 < k ≤ 32`: the top `k` bits of one
32-bit output (the only case the program exercises is `k = 9`). -/
def getrandbits (k : Nat) (g : RandState) : Nat × RandState :=
  let r := genrand_uint32 g
  (r.1 >>> (32 - k), r.2)

/-- `random._randbelow(256)` (CPython's `_randbelow_with_getrandbits`):
`256.bit_length() = 9`, so draw 9-bit values and reject those `≥ 256`.
The real loop is unbounded; it is modelled with fuel, and `none` stands
for the loop still running after the fuel is spent (divergence), not for
an exception. -/
def randbelowLoop : Nat → RandState → Option Nat × RandState
  | 0, g => (none, g)
  | fuel + 1, g =>
    let r := getrandbits 9 g
    if r.1 < 256 then (some r.1, r.2) else randbelowLoop fuel r.2

/-- `random.randint(0, 255)` = `randrange(0, 256)` = `_randbelow(256)`.
Fuel 64 for the rejection loop: each 9-bit draw is rejected only when its
value is in `[256, 511]`. -/
def randint255 (g : RandState) : Option Nat × RandState := randbelowLoop 64 g

/-- Python `Py_UNICODE_ISSPACE`, the whitespace predicate behind
`str.strip()`. -/
def pyIsSpace (c : Char) : Bool :=
  let n := c.toNat
  (9 ≤ n && n ≤ 13) || (28 ≤ n && n ≤ 32) || n == 133 || n == 160 ||
  n == 5760 || (8192 ≤ n && n ≤ 8202) || n == 8232 || n == 8233 ||
  n == 8239 || n == 8287 || n == 12288

/-- Python `s.strip()`: remove leading and trailing whitespace. -/
def pyStrip (s : String) : String :=
  ⟨((s.data.dropWhile pyIsSpace).reverse.dropWhile pyIsSpace).reverse⟩

/-- Python `str.lower()` restricted to ASCII letters (the full Unicode
case mapping is elided; no statement in this development distinguishes
the two, since the lowercasing is compared against itself and all
concrete inputs are ASCII). -/
def pyLowerChar (c : Char) : Char :=
  if 65 ≤ c.toNat ∧ c.toNat ≤ 90 then Char.ofNat (c.toNat + 32) else c

/-- Python `s.lower()` (ASCII fragment, see `pyLowerChar`). -/
def pyLower (s : String) : String := ⟨s.data.map pyLowerChar⟩

/-- Lowercase hex digits of `n`, most significant first, accumulated into
`acc` (fuelled; the fuel is instantiated with `n`, which bounds the digit
count since the argument is divided by 16 at each step). -/
def hexDigitsCore : Nat → Nat → List Char → List Char
  | 0, n, acc => hexChar (n % 16) :: acc
  | fuel + 1, n, acc =>
    if n < 16 then hexChar n :: acc
    else hexDigitsCore fuel (n / 16) (hexChar (n % 16) :: acc)

/-- Python `f"{n:02x}"`: lowercase hex, zero-padded to width 2. -/
def format02x (n : Nat) : String :=
  ⟨List.replicate (2 - (hexDigitsCore n n []).length) '0' ++ hexDigitsCore n n []⟩

/-- The response model of the palette endpoint (`PaletteResponse`). -/
structure PaletteResponse where
  seed : String
  colors : List String
  keywords : List String
deriving DecidableEq, Repr

/-- Outcome of one invocation of `get_palette`: an `HTTPException`
(status code and detail), divergence of the rejection loop (fuel ran
out; the real code would keep drawing), or a response. -/
inductive PaletteResult where
  | error (status : Nat) (detail : String)
  | diverge
  | ok (resp : PaletteResponse)
deriving DecidableEq, Repr

/-- One iteration of the color loop of `get_palette`: draw `r`, `g`, `b`
in that order via `random.randint(0, 255)`, format as
`f"#{r:02x}{g:02x}{b:02x}"`. -/
def drawColor (g : RandState) : Option String × RandState :=
  match randint255 g with
  | (none, g1) => (none, g1)
  | (some r, g1) =>
    match randint255 g1 with
    | (none, g2) => (none, g2)
    | (some gr, g2) =>
      match randint255 g2 with
      | (none, g3) => (none, g3)
      | (some b, g3) =>
        (some ("#" ++ format02x r ++ format02x gr ++ format02x b), g3)

/-- The `for _ in range(n)` color loop of `get_palette`, appending each
drawn color in order. -/
def drawColors : Nat → RandState → Option (List String) × RandState
  | 0, g => (some [], g)
  | n + 1, g =>
    match drawColor g with
    | (none, g1) => (none, g1)
    | (some c, g1) =>
      match drawColors n g1 with
      | (none, g2) => (none, g2)
      | (some cs, g2) => (some (c :: cs), g2)

/-- The keyword list of `get_palette`:
`[s.lower(), f"{s}-vibe", f"{s}-soft", f"{s}-bold", f"{s}-contrast"]`. -/
def paletteKeywords (s : String) : List String :=
  [pyLower s, s ++ "-vibe", s ++ "-soft", s ++ "-bold", s ++ "-contrast"]

/-- The derived numeric seed of `get_palette` (line 36 of `src/app.py`):
`int(hashlib.md5(s.encode()).hexdigest()[:8], 16)`. -/
def paletteSeedHash (s : String) : Nat :=
  parseHexNat (List.take 8 (md5HexDigest (utf8Encode s)))

/-- The body of `get_palette` after validation and seeding: draw the 5
colors from the (freshly seeded) global generator and assemble the
response. -/
def paletteBody (s : String) (g : RandState) : PaletteResult × RandState :=
  match drawColors 5 g with
  | (none, g1) => (.diverge, g1)
  | (some colors, g1) => (.ok ⟨s, colors, paletteKeywords s⟩, g1)

/-- Embedding of `get_palette` (lines 28-56 of `src/app.py`).  The
`RandState` argument and result are the global `random` module state: the
function overwrites it via `random.seed(seed_hash)` on the success path
and leaves it untouched on the validation-error path. -/
def get_palette (s : String) (g : RandState) : PaletteResult × RandState :=
  if (s == "") || (pyStrip s == "") then
    (.error 422 "s must not be blank", g)
  else
    paletteBody s (randomSeed (paletteSeedHash s))

/-- Outcome of one invocation of `hello_name`. -/
inductive HelloResult where
  | error (status : Nat) (detail : String)
  | ok (message : String)
deriving DecidableEq, Repr

/-- Embedding of `hello_name` (lines 17-25 of `src/app.py`). -/
def hello_name (name : String) : HelloResult :=
  if (name == "") || (pyStrip name == "") then
    .error 400 "Name cannot be empty"
  else
    .ok ("Hello, " ++ name ++ "!")

/-- Outcome of an HTTP request to `/palette`, including the framework
boundary for the required query parameter. -/
inductive PaletteEndpointResult where
  | requestValidationError (status : Nat)
  | httpError (status : Nat) (detail : String)
  | diverge
  | ok (resp : PaletteResponse)
deriving DecidableEq, Repr

/-- The `/palette` operation at the HTTP boundary.  The query parameter
`s` is declared `Query(...)` (required); when it is absent FastAPI
rejects the request with a `RequestValidationError` response of status
422 before the handler runs, as pinned by
`test_app.py::test_palette_missing_parameter`.  When it is present the
handler `get_palette` runs. -/
def palette_endpoint (q : Option String) (g : RandState) :
    PaletteEndpointResult × RandState :=
  match q with
  | none => (.requestValidationError 422, g)
  | some s =>
    match get_palette s g with
    | (.error c d, g1) => (.httpError c d, g1)
    | (.diverge, g1) => (.diverge, g1)
    | (.ok p, g1) => (.ok p, g1)

/-- HTTP status code of a `/palette` outcome (200 on success; divergence
produces no response, rendered as 0). -/
def endpointStatus : PaletteEndpointResult → Nat
  | .requestValidationError c => c
  | .httpError c _ => c
  | .diverge => 0
  | .ok _ => 200

/-!  Spec-side definitions, written from the specification's words, to be
compared with the definitions embedded from the source.  -/

/-- The spec's derived numeric seed, following its words: "Take the first
8 hexadecimal characters of the digest's hex representation and parse
them as a 32-bit unsigned integer" — the 32-bit reading is rendered as an
explicit reduction modulo `2 ^ 32`. -/
def specDerivedSeed (s : String) : Nat :=
  parseHexNat (List.take 8 (md5HexDigest (utf8Encode s))) % 4294967296

/-- Decidable check for one lowercase hexadecimal digit character. -/
def isLowerHexDigit (c : Char) : Bool :=
  (48 ≤ c.toNat && c.toNat ≤ 57) || (97 ≤ c.toNat && c.toNat ≤ 102)

/-- Decidable check for the spec's color pattern `#[0-9a-f]{6}`:
7 characters, leading `#`, then 6 lowercase hex digits. -/
def isHexColor (t : String) : Bool :=
  match t.data with
  | '#' :: rest => rest.length == 6 && rest.all isLowerHexDigit
  | _ => false

/-- A reachable concrete state of the global generator (`random.seed(0)`),
used as the arbitrary pre-call state in concrete instantiations. -/
def g0 : RandState := randomSeed 0

/-- The palette the embedded `get_palette` returns for the seed string
`"sunset"` (validated against the running program's output). -/
def sunsetPalette : PaletteResponse :=
  ⟨"sunset", ["#4d6747", "#1b747b", "#2fcb9f", "#bf59d1", "#8ac52c"],
   ["sunset", "sunset-vibe", "sunset-soft", "sunset-bold", "sunset-contrast"]⟩

/-!  Helper lemmas.  -/

lemma hexVal_le (c : Char) : hexVal c ≤ 15 := by
  unfold hexVal
  split
  · omega
  · split
    · omega
    · split <;> omega

lemma parseHexNat_foldl_lt (l : List Char) :
    ∀ acc, l.foldl (fun acc c => 16 * acc + hexVal c) acc < (acc + 1) * 16 ^ l.length := by
  induction l with
  | nil =>
    intro acc
    simp only [List.foldl_nil, List.length_nil, pow_zero, Nat.mul_one]
    omega
  | cons c l ih =>
    intro acc
    have h1 := ih (16 * acc + hexVal c)
    have h2 : hexVal c ≤ 15 := hexVal_le c
    have h3 : (16 * acc + hexVal c + 1) * 16 ^ l.length ≤ (acc + 1) * 16 ^ (c :: l).length := by
      simp only [List.length_cons, pow_succ]
      calc (16 * acc + hexVal c + 1) * 16 ^ l.length
      _ ≤ ((acc + 1) * 16) * 16 ^ l.length :=
        Nat.mul_le_mul_right _ (by omega)
      _ = (acc + 1) * (16 ^ l.length * 16) := by ring
    calc (c :: l).foldl (fun acc c => 16 * acc + hexVal c) acc
    _ = l.foldl (fun acc c => 16 * acc + hexVal c) (16 * acc + hexVal c) := by
      simp [List.foldl_cons]
    _ < (16 * acc + hexVal c + 1) * 16 ^ l.length := h1
    _ ≤ (acc + 1) * 16 ^ (c :: l).length := h3

lemma parseHexNat_lt (l : List Char) : parseHexNat l < 16 ^ l.length := by
  have h := parseHexNat_foldl_lt l 0
  rw [Nat.zero_add, Nat.one_mul] at h
  exact h

lemma paletteSeedHash_lt (s : String) : paletteSeedHash s < 4294967296 := by
  have h := parseHexNat_lt (List.take 8 (md5HexDigest (utf8Encode s)))
  have hlen : (List.take 8 (md5HexDigest (utf8Encode s))).length ≤ 8 := by
    simp [List.length_take]
  calc paletteSeedHash s
  _ < 16 ^ (List.take 8 (md5HexDigest (utf8Encode s))).length := h
  _ ≤ 16 ^ 8 := Nat.pow_le_pow_right (by norm_num) hlen
  _ = 4294967296 := by norm_num

lemma pyStrip_empty : pyStrip "" = "" := rfl

lemma blankCond_eq_true {s : String} (h : pyStrip s = "") :
    ((s == "") || (pyStrip s == "")) = true := by
  simp [h]

lemma blankCond_eq_false {s : String} (h : pyStrip s ≠ "") :
    ((s == "") || (pyStrip s == "")) = false := by
  have hs : s ≠ "" := fun he => h (he ▸ pyStrip_empty)
  simp [hs, h]

lemma get_palette_blank {s : String} (h : pyStrip s = "") (g : RandState) :
    get_palette s g = (.error 422 "s must not be blank", g) := by
  simp [get_palette, blankCond_eq_true h]

lemma get_palette_nonblank {s : String} (h : pyStrip s ≠ "") (g : RandState) :
    get_palette s g = paletteBody s (randomSeed (paletteSeedHash s)) := by
  simp [get_palette, blankCond_eq_false h]

lemma paletteBody_ok (s : String) (g : RandState) (colors : List String)
    (g1 : RandState) (hdc : drawColors 5 g = (some colors, g1)) :
    paletteBody s g = (.ok ⟨s, colors, paletteKeywords s⟩, g1) := by
  unfold paletteBody
  rw [hdc]

lemma paletteBody_none (s : String) (g : RandState) (g1 : RandState)
    (hdc : drawColors 5 g = (none, g1)) :
    paletteBody s g = (.diverge, g1) := by
  unfold paletteBody
  rw [hdc]

lemma paletteBody_fst_ne_error (s : String) (g : RandState) (c : Nat) (d : String) :
    (paletteBody s g).1 ≠ .error c d := by
  rcases hdc : drawColors 5 g with ⟨o, g1⟩
  cases o with
  | none => rw [paletteBody_none s g g1 hdc]; simp
  | some colors => rw [paletteBody_ok s g colors g1 hdc]; simp

lemma randbelowLoop_lt (fuel : Nat) :
    ∀ g r g', randbelowLoop fuel g = (some r, g') → r < 256 := by
  induction fuel with
  | zero => intro g r g' h; simp [randbelowLoop] at h
  | succ n ih =>
    intro g r g' h
    unfold randbelowLoop at h
    by_cases hlt : (getrandbits 9 g).1 < 256
    · rw [if_pos hlt] at h
      obtain ⟨h1, -⟩ := Prod.mk.injEq .. ▸ h
      cases h1
      exact hlt
    · rw [if_neg hlt] at h
      exact ih _ _ _ h

lemma randint255_lt {g : RandState} {r : Nat} {g' : RandState}
    (h : randint255 g = (some r, g')) : r < 256 :=
  randbelowLoop_lt 64 g r g' h

lemma hexChar_isLowerHexDigit (n : Nat) (h : n < 16) :
    isLowerHexDigit (hexChar n) = true := by
  interval_cases n <;> decide

lemma hexDigitsCore_small (fuel n : Nat) (acc : List Char) (h : n < 16) :
    hexDigitsCore fuel n acc = hexChar n :: acc := by
  cases fuel with
  | zero => simp [hexDigitsCore, Nat.mod_eq_of_lt h]
  | succ f => simp [hexDigitsCore, h]

lemma hexDigitsCore_two (fuel n : Nat) (acc : List Char) (h16 : 16 ≤ n) (h : n < 256) :
    hexDigitsCore (fuel + 1) n acc = hexChar (n / 16) :: hexChar (n % 16) :: acc := by
  have hdiv : n / 16 < 16 := by omega
  simp [hexDigitsCore, Nat.not_lt.mpr h16, hexDigitsCore_small fuel _ _ hdiv]

lemma hexDigitsCore_self (n : Nat) (acc : List Char) (h16 : 16 ≤ n) (h : n < 256) :
    hexDigitsCore n n acc = hexChar (n / 16) :: hexChar (n % 16) :: acc := by
  cases n with
  | zero => omega
  | succ f => exact hexDigitsCore_two f (f + 1) acc h16 h

lemma format02x_data (n : Nat) (h : n < 256) :
    ∃ c1 c2, (format02x n).data = [c1, c2] ∧
      isLowerHexDigit c1 = true ∧ isLowerHexDigit c2 = true := by
  by_cases h16 : n < 16
  · refine ⟨'0', hexChar n, ?_, rfl, hexChar_isLowerHexDigit n h16⟩
    simp [format02x, hexDigitsCore_small n n [] h16]
  · have h16' : 16 ≤ n := Nat.not_lt.1 h16
    refine ⟨hexChar (n / 16), hexChar (n % 16), ?_,
      hexChar_isLowerHexDigit _ (by omega),
      hexChar_isLowerHexDigit _ (Nat.mod_lt _ (by norm_num))⟩
    simp [format02x, hexDigitsCore_self n [] h16' h]

lemma string_data_append (a b : String) : (a ++ b).data = a.data ++ b.data := rfl

lemma isHexColor_format (r gr b : Nat) (hr : r < 256) (hg : gr < 256) (hb : b < 256) :
    isHexColor ("#" ++ format02x r ++ format02x gr ++ format02x b) = true := by
  obtain ⟨r1, r2, hrd, hr1, hr2⟩ := format02x_data r hr
  obtain ⟨a1, a2, hgd, hg1, hg2⟩ := format02x_data gr hg
  obtain ⟨b1, b2, hbd, hb1, hb2⟩ := format02x_data b hb
  have hdata : ("#" ++ format02x r ++ format02x gr ++ format02x b).data
      = '#' :: [r1, r2, a1, a2, b1, b2] := by
    simp [string_data_append, hrd, hgd, hbd]
  unfold isHexColor
  rw [hdata]
  simp [hr1, hr2, hg1, hg2, hb1, hb2]

lemma drawColor_isHexColor {g : RandState} {c : String} {g' : RandState}
    (h : drawColor g = (some c, g')) : isHexColor c = true := by
  unfold drawColor at h
  split at h
  · simp at h
  · rename_i r g1 h1
    split at h
    · simp at h
    · rename_i a g2 h2
      split at h
      · simp at h
      · rename_i b g3 h3
        simp only [Prod.mk.injEq, Option.some.injEq] at h
        obtain ⟨hc, -⟩ := h
        rw [← hc]
        exact isHexColor_format r a b (randint255_lt h1) (randint255_lt h2) (randint255_lt h3)

lemma drawColors_length (n : Nat) :
    ∀ g cs g', drawColors n g = (some cs, g') → cs.length = n := by
  induction n with
  | zero =>
    intro g cs g' h
    simp only [drawColors, Prod.mk.injEq, Option.some.injEq] at h
    obtain ⟨hc, -⟩ := h
    simp [← hc]
  | succ m ih =>
    intro g cs g' h
    unfold drawColors at h
    split at h
    · simp at h
    · rename_i c g1 h1
      split at h
      · simp at h
      · rename_i cs' g2 h2
        simp only [Prod.mk.injEq, Option.some.injEq] at h
        obtain ⟨hc, -⟩ := h
        rw [← hc]
        simp [ih g1 cs' g2 h2]

lemma drawColors_hex (n : Nat) :
    ∀ g cs g', drawColors n g = (some cs, g') → ∀ c ∈ cs, isHexColor c = true := by
  induction n with
  | zero =>
    intro g cs g' h
    simp only [drawColors, Prod.mk.injEq, Option.some.injEq] at h
    obtain ⟨hc, -⟩ := h
    simp [← hc]
  | succ m ih =>
    intro g cs g' h
    unfold drawColors at h
    split at h
    · simp at h
    · rename_i c g1 h1
      split at h
      · simp at h
      · rename_i cs' g2 h2
        simp only [Prod.mk.injEq, Option.some.injEq] at h
        obtain ⟨hc, -⟩ := h
        rw [← hc]
        intro x hx
        rcases List.mem_cons.1 hx with hx | hx
        · exact hx ▸ drawColor_isHexColor h1
        · exact ih g1 cs' g2 h2 x hx

set_option maxRecDepth 100000

lemma sunset_eval : (get_palette "sunset" g0).1 = .ok sunsetPalette := by decide

/-!  Claim theorems.  -/

/-- C1: for every non-blank seed string `s`, two sequential invocations of
the palette generator with the same `s` — the second starting from the
global generator state the first left behind — produce byte-identical
results (identical response and identical final state). -/
theorem claim_C1 (s : String) (g : RandState) (h : pyStrip s ≠ "") :
    get_palette s (get_palette s g).2 = get_palette s g := by
  simp only [get_palette_nonblank h]

/-- Witness for C1 at the concrete seed `"sunset"`. -/
theorem claim_C1_witness :
    pyStrip "sunset" ≠ "" ∧
    get_palette "sunset" (get_palette "sunset" g0).2 = get_palette "sunset" g0 :=
  ⟨by decide, claim_C1 "sunset" g0 (by decide)⟩

/-- C2: the derived numeric seed of `get_palette` equals the first 8
hexadecimal characters of the MD5 hex digest of the UTF-8 encoding of
`s`, parsed as a 32-bit unsigned integer (`specDerivedSeed`, written from
the spec's words), and on the non-blank path the generator state the
colors are drawn from is `randomSeed` of exactly that value — its sole
seeding input, the previous state being discarded. -/
theorem claim_C2 (s : String) (g : RandState) (h : pyStrip s ≠ "") :
    paletteSeedHash s = specDerivedSeed s ∧
    get_palette s g = paletteBody s (randomSeed (specDerivedSeed s)) := by
  have he : specDerivedSeed s = paletteSeedHash s :=
    Nat.mod_eq_of_lt (paletteSeedHash_lt s)
  exact ⟨he.symm, by rw [get_palette_nonblank h g, he]⟩

/-- Witness for C2 at the concrete seed `"sunset"`. -/
theorem claim_C2_witness :
    pyStrip "sunset" ≠ "" ∧
    (paletteSeedHash "sunset" = specDerivedSeed "sunset" ∧
     get_palette "sunset" g0 = paletteBody "sunset" (randomSeed (specDerivedSeed "sunset"))) :=
  ⟨by decide, claim_C2 "sunset" g0 (by decide)⟩

/-- C3: every palette response has exactly 5 colors, the color list is
the one drawn by the seeded draw pipeline (three `randint(0, 255)` draws
per color in the fixed order r, g, b — the order `drawColor` performs),
and each entry matches `#[0-9a-f]{6}` exactly. -/
theorem claim_C3 (s : String) (g : RandState) (p : PaletteResponse)
    (h : (get_palette s g).1 = .ok p) :
    (drawColors 5 (randomSeed (paletteSeedHash s))).1 = some p.colors ∧
    p.colors.length = 5 ∧ ∀ c ∈ p.colors, isHexColor c = true := by
  have hnb : pyStrip s ≠ "" := by
    intro hb
    rw [get_palette_blank hb g] at h
    simp at h
  rw [get_palette_nonblank hnb g] at h
  rcases hdc : drawColors 5 (randomSeed (paletteSeedHash s)) with ⟨o, g1⟩
  cases o with
  | none =>
    rw [paletteBody_none s _ g1 hdc] at h
    simp at h
  | some colors =>
    rw [paletteBody_ok s _ colors g1 hdc] at h
    simp only [PaletteResult.ok.injEq] at h
    rw [← h]
    exact ⟨rfl, drawColors_length 5 _ colors g1 hdc, drawColors_hex 5 _ colors g1 hdc⟩

/-- Witness for C3: the concrete palette for the seed `"sunset"`. -/
theorem claim_C3_witness :
    (get_palette "sunset" g0).1 = .ok sunsetPalette ∧
    ((drawColors 5 (randomSeed (paletteSeedHash "sunset"))).1 = some sunsetPalette.colors ∧
     sunsetPalette.colors.length = 5 ∧ ∀ c ∈ sunsetPalette.colors, isHexColor c = true) :=
  ⟨sunset_eval, claim_C3 "sunset" g0 sunsetPalette sunset_eval⟩

/-- C4: every palette response carries exactly the keyword list
`[s.lower(), s ++ "-vibe", s ++ "-soft", s ++ "-bold", s ++ "-contrast"]`
— only entry 0 lowercased, entries 1 through 4 preserving the original
casing of `s` — and echoes the seed verbatim. -/
theorem claim_C4 (s : String) (g : RandState) (p : PaletteResponse)
    (h : (get_palette s g).1 = .ok p) :
    p.keywords = [pyLower s, s ++ "-vibe", s ++ "-soft", s ++ "-bold", s ++ "-contrast"] ∧
    p.seed = s := by
  have hnb : pyStrip s ≠ "" := by
    intro hb
    rw [get_palette_blank hb g] at h
    simp at h
  rw [get_palette_nonblank hnb g] at h
  rcases hdc : drawColors 5 (randomSeed (paletteSeedHash s)) with ⟨o, g1⟩
  cases o with
  | none =>
    rw [paletteBody_none s _ g1 hdc] at h
    simp at h
  | some colors =>
    rw [paletteBody_ok s _ colors g1 hdc] at h
    simp only [PaletteResult.ok.injEq] at h
    rw [← h]
    exact ⟨rfl, rfl⟩

/-- Witness for C4: `Palette("sunset").keywords` is exactly the expected
list and the seed field echoes `"sunset"`. -/
theorem claim_C4_witness :
    (get_palette "sunset" g0).1 = .ok sunsetPalette ∧
    sunsetPalette.keywords =
      ["sunset", "sunset-vibe", "sunset-soft", "sunset-bold", "sunset-contrast"] ∧
    sunsetPalette.seed = "sunset" := by
  have h := claim_C4 "sunset" g0 sunsetPalette sunset_eval
  exact ⟨sunset_eval, h.1.trans (by decide), h.2⟩

/-- C5 counterexample: the single-space string is a non-empty input, yet
`get_palette` itself takes the validation-error path on it — the error
branch is reachable for non-empty input, and blankness validation is
performed by the function itself. -/
theorem claim_C5_counterexample :
    (" " : String) ≠ "" ∧
    (get_palette " " g0).1 = .error 422 "s must not be blank" := by
  exact ⟨by decide, by rw [get_palette_blank (by decide) g0]⟩

/-- C5 amended: `get_palette` itself performs the blankness validation:
it returns the 422 error exactly when the trimmed input is empty, and for
every input whose trimmed form is non-empty it takes no error path. -/
theorem claim_C5_amended (s : String) (g : RandState) :
    ((get_palette s g).1 = .error 422 "s must not be blank" ↔ pyStrip s = "") ∧
    (∀ c d, pyStrip s ≠ "" → (get_palette s g).1 ≠ .error c d) := by
  constructor
  · constructor
    · intro he
      by_contra hnb
      rw [get_palette_nonblank hnb g] at he
      exact paletteBody_fst_ne_error _ _ _ _ he
    · intro hb
      rw [get_palette_blank hb g]
  · intro c d hnb
    rw [get_palette_nonblank hnb g]
    exact paletteBody_fst_ne_error _ _ _ _

/-- Witness for the amended C5 at the concrete seed `"sunset"`. -/
theorem claim_C5_amended_witness :
    (get_palette "sunset" g0).1 ≠ .error 422 "s must not be blank" :=
  (claim_C5_amended "sunset" g0).2 422 "s must not be blank" (by decide)

/-- C6: the greeting operation returns exactly `"Hello, " ++ name ++ "!"`
with the original untrimmed `name` whenever the trimmed form of `name` is
non-empty, and it returns the 400 "Name cannot be empty" error if and
only if the trimmed form is empty. -/
theorem claim_C6 (name : String) :
    (pyStrip name ≠ "" → hello_name name = .ok ("Hello, " ++ name ++ "!")) ∧
    (hello_name name = .error 400 "Name cannot be empty" ↔ pyStrip name = "") := by
  constructor
  · intro h
    simp [hello_name, blankCond_eq_false h]
  · constructor
    · intro he
      by_contra hnb
      simp [hello_name, blankCond_eq_false hnb] at he
    · intro hb
      simp [hello_name, blankCond_eq_true hb]

/-- Witness for C6 at the concrete name `"Mike"`. -/
theorem claim_C6_witness : hello_name "Mike" = .ok "Hello, Mike!" :=
  (claim_C6 "Mike").1 (by decide)

/-- C7 counterexample: the two error outcomes of the palette operation do
not belong to different status-code classes — a missing `s` and a blank
`s` both produce HTTP status 422, the same code and the same 4xx class. -/
theorem claim_C7_counterexample :
    endpointStatus (palette_endpoint none g0).1 = 422 ∧
    endpointStatus (palette_endpoint (some " ") g0).1 = 422 := by
  constructor
  · rfl
  · decide

/-- C7 amended: the palette operation distinguishes exactly two error
kinds — a missing query parameter yields the framework's
request-validation error, a present but trimmed-empty `s` yields the
handler's HTTPException with detail "s must not be blank" — but both are
mapped to HTTP status 422: the same status code and class; the two are
distinguished by error kind and payload, not by status-code class. -/
theorem claim_C7_amended (g : RandState) :
    (palette_endpoint none g).1 = .requestValidationError 422 ∧
    (∀ s, pyStrip s = "" →
      (palette_endpoint (some s) g).1 = .httpError 422 "s must not be blank") ∧
    endpointStatus (palette_endpoint none g).1 = 422 ∧
    (∀ s, pyStrip s = "" → endpointStatus (palette_endpoint (some s) g).1 = 422) := by
  have hblank : ∀ s, pyStrip s = "" →
      (palette_endpoint (some s) g).1 = .httpError 422 "s must not be blank" := by
    intro s hb
    simp [palette_endpoint, get_palette_blank hb g]
  exact ⟨rfl, hblank, rfl, fun s hb => by rw [hblank s hb]; rfl⟩

/-- Witness for the amended C7 at the concrete blank input `"   "`. -/
theorem claim_C7_amended_witness :
    (palette_endpoint (some "   ") g0).1 = .httpError 422 "s must not be blank" :=
  (claim_C7_amended g0).2.1 "   " (by decide)

/-- C8 counterexample: a palette call mutates the global generator state:
starting from the reachable state `random.seed(0)`, the global state
after `get_palette("sunset")` differs from the state before the call —
the generator is the shared module-global `random` instance, not an
instance local to the call. -/
theorem claim_C8_counterexample :
    (get_palette "sunset" g0).2 ≠ g0 := by decide

/-- C8 amended: the generator is the shared module-global instance, but
each call overwrites it by re-seeding, so the call's result and the
global state it leaves behind depend only on the seed string and not on
the prior global state; sequential determinism is preserved even though
shared state is mutated. -/
theorem claim_C8_amended (s : String) (g g' : RandState) (h : pyStrip s ≠ "") :
    get_palette s g = get_palette s g' := by
  rw [get_palette_nonblank h g, get_palette_nonblank h g']

/-- Witness for the amended C8: two different pre-call global states give
identical call behavior for the seed `"sunset"`. -/
theorem claim_C8_amended_witness :
    get_palette "sunset" (randomSeed 0) = get_palette "sunset" (randomSeed 1) :=
  claim_C8_amended "sunset" (randomSeed 0) (randomSeed 1) (by decide)

/-- C9: when the trimmed input is empty, `get_palette` raises the
validation error before the seeding step executes: it returns the error
together with the incoming global generator state, unchanged. -/
theorem claim_C9 (s : String) (g : RandState) (h : pyStrip s = "") :
    get_palette s g = (.error 422 "s must not be blank", g) :=
  get_palette_blank h g

/-- Witness for C9 at the concrete all-whitespace input `"   "`. -/
theorem claim_C9_witness :
    get_palette "   " g0 = (.error 422 "s must not be blank", g0) :=
  claim_C9 "   " g0 (by decide)

/-- C10: for every input string, the derived numeric seed computed by
`get_palette` lies in `[0, 2 ^ 32)`: parsing at most 8 hexadecimal
characters always yields a value below `16 ^ 8 = 2 ^ 32`. -/
theorem claim_C10 (s : String) : paletteSeedHash s < 2 ^ 32 :=
  paletteSeedHash_lt s

end App
